import Mathlib

/-!
Shallow embedding of `src/server.js` — a WhatsApp→Telegram media bridge.

JavaScript strings are modelled as Lean `String`s (the payloads involved are
ASCII, so UTF-16 length coincides with character count).  JavaScript numbers
appearing here are either array/string lengths (`Nat`) or the result of
`Math.round` on a dyadic-scaled length; scaling a float by powers of two is
exact, so `Math.round((L * 3) / 4 / 1024 / 1024)` is modelled exactly by
`round` on `ℚ`.  Asynchronous effects (logging, replying, Telegram calls) are
modelled by returning explicit lists of the observations the handler makes.
-/

-- ===== CONFIGURATION & CONSTANTS (src/server.js lines 10-12, 30) =====

/-- `MAX_FILE_SIZE_MB = 50` — Telegram limit for free bots. -/
def MAX_FILE_SIZE_MB : ℤ := 50

/-- `RETRY_ATTEMPTS = 3`. -/
def RETRY_ATTEMPTS : Nat := 3

/-- `RETRY_DELAY_MS = 1000` (the timing itself is not modelled, only the constant). -/
def RETRY_DELAY_MS : Nat := 1000

/-- `SUPPORTED_MEDIA_TYPES = ['image', 'video', 'audio', 'document', 'sticker']`. -/
def SUPPORTED_MEDIA_TYPES : List String :=
  ["image", "video", "audio", "document", "sticker"]

-- ===== JS STRING PRIMITIVES =====

/-- Model of JavaScript `s.substring(0, n)`: the first `n` characters of `s`. -/
def jsTake (s : String) (n : Nat) : String :=
  String.mk (s.data.take n)

/-- Remove the first occurrence of the character `c` from a character list;
the character-list core of JavaScript `s.replace(c, '')` with a one-character
string pattern (a string pattern replaces only the first occurrence). -/
def removeFirstOccur (c : Char) : List Char → List Char
  | [] => []
  | x :: xs => if x = c then xs else x :: removeFirstOccur c xs

/-- Model of JavaScript `s.replace(c, '')` for a single-character pattern `c`:
removes the first occurrence of `c`, wherever it is. -/
def jsReplaceFirstChar (s : String) (c : Char) : String :=
  String.mk (removeFirstOccur c s.data)

/-- Spec-side normalization, written from the spec's words ("exact match after
normalizing a leading `+` sign away"): strips one leading `'+'` and nothing
else.  Kept separate from `jsReplaceFirstChar`, which is the code's
`WHATSAPP_PHONE.replace('+', '')`. -/
def stripLeadingPlusSpec (p : String) : String :=
  if p.data.head? = some '+' then String.mk p.data.tail else p

/-- A phone string in the documented shape: its `'+'`, if any, is leading.
Under this condition the code's replace-first-`'+'` agrees with the spec's
strip-leading-`'+'`. -/
def phoneWellFormed (p : String) : Prop :=
  p.data.head? = some '+' ∨ '+' ∉ p.data

-- ===== UTILITY FUNCTIONS (src/server.js lines 34-55) =====

/-- The character class `[a-zA-Z0-9._-]` kept by `sanitizeFileName`. -/
def allowedChar (c : Char) : Bool :=
  c.isAlpha || c.isDigit || c = '.' || c = '_' || c = '-'

/-- One step of `filename.replace(/[^a-zA-Z0-9._-]/g, '_')`: a character in
the class is kept, every other character becomes `'_'`. -/
def sanitizeChar (c : Char) : Char :=
  if allowedChar c then c else '_'

/-- `sanitizeFileName(filename)`:
falsy input (absent or empty) yields `media_<Date.now()>.bin`; otherwise every
character outside `[a-zA-Z0-9._-]` is replaced by `'_'` and the result is cut
to its first 64 characters.  `now` models `Date.now()`. -/
def sanitizeFileName (now : Nat) (filename : Option String) : String :=
  match filename with
  | none => "media_" ++ Nat.repr now ++ ".bin"
  | some s =>
    if s = "" then "media_" ++ Nat.repr now ++ ".bin"
    else jsTake (String.mk (s.data.map sanitizeChar)) 64

/-- The shape `media_<digits>.bin` of the generated placeholder name. -/
def matchesMediaPattern (s : String) : Prop :=
  ∃ ds : List Char, ds ≠ [] ∧ (∀ c ∈ ds, c.isDigit = true) ∧
    s = "media_" ++ String.mk ds ++ ".bin"

/-- `getTelegramSendMethod(type)` — the `switch` on the media type. -/
def getTelegramSendMethod (type : String) : String :=
  if type = "image" then "sendPhoto"
  else if type = "video" then "sendVideo"
  else if type = "audio" then "sendAudio"
  else "sendDocument"

/-- `estimateFileSize(base64Data) = Math.round((base64Data.length * 3) / 4 / 1024 / 1024)`.
The divisions are by powers of two, hence exact in floating point, so the
computation is modelled exactly over `ℚ`. -/
def estimateFileSize (base64Data : String) : ℤ :=
  round (((base64Data.length : ℚ) * 3) / 4 / 1024 / 1024)

-- ===== RETRY WRAPPER (src/server.js lines 58-68) =====

/-- Loop body of `withRetry`.  `action j` is the outcome of the `j`-th call of
`operation` (0-indexed).  `i` is the loop counter, `fuel = attempts - i` the
remaining iterations.  Returns `(returned value if the loop was entered,
number of calls made, warnings logged as (1-based attempt index, error))`.
On the final failed attempt the error is thrown before any warning is logged. -/
def withRetryLoop {E A : Type} (action : Nat → Except E A) (attempts : Nat) :
    Nat → Nat → Option (Except E A) × Nat × List (Nat × E)
  | _, 0 => (none, 0, [])
  | i, fuel + 1 =>
    match action i with
    | Except.ok a => (some (Except.ok a), 1, [])
    | Except.error e =>
      if i = attempts - 1 then (some (Except.error e), 1, [])
      else
        let r := withRetryLoop action attempts (i + 1) fuel
        (r.1, r.2.1 + 1, (i + 1, e) :: r.2.2)

/-- `withRetry(operation, attempts)`: run `operation` up to `attempts` times,
returning the first success, or rethrowing the error of the final failed
attempt; each non-final failure logs a warning.  (With `attempts = 0` the JS
loop body never runs and the function returns `undefined`, modelled by
`none`.) -/
def withRetry {E A : Type} (action : Nat → Except E A) (attempts : Nat) :
    Option (Except E A) × Nat × List (Nat × E) :=
  withRetryLoop action attempts 0 attempts

-- ===== CAPTION (src/server.js lines 86-89) =====

/-- `generateCaption(from, timestamp)`; `fmt` models
`ts ↦ new Date(ts).toLocaleString('en-US')`, an opaque runtime formatter. -/
def generateCaption (fmt : Nat → String) (from_ : String) (timestamp : Nat) : String :=
  let date := fmt (timestamp * 1000)
  jsTake ("Media from WhatsApp:\nFrom: " ++ from_ ++ "\nTime: " ++ date) 200

-- ===== MESSAGE HANDLER (src/server.js lines 92-145) =====

/-- The media payload returned by `msg.downloadMedia()`. -/
structure Media where
  data : String
  mimetype : String
  filename : Option String

/-- The fields of the inbound WhatsApp message event the handler reads, plus
`hasMedia` (present on events per the platform's data model, never read by
this handler). -/
structure Msg where
  from_ : String
  type : String
  t : Nat
  hasMedia : Bool

/-- One invocation of a Telegram send method
`telegramBot[sendMethod](TELEGRAM_USER_ID, buffer, opts)`. -/
structure TelegramCall where
  method : String
  chatId : String
  body : String
  caption : String
  contentType : String
  filename : String
deriving DecidableEq

/-- The externally observable behaviour of one run of the message handler. -/
structure HandlerOutput where
  logs : List String
  replies : List String
  telegramCalls : List TelegramCall
deriving DecidableEq

/-- The `whatsappClient.on('message')` handler.  Parameters model the ambient
world: `whatsappPhone`/`telegramUserId` the configuration, `now` the clock
read by `Date.now()`, `fmt` the locale date formatter, `download` the result
of `msg.downloadMedia()` (`none` for a falsy payload), and `send j` the
outcome of the `j`-th Telegram send attempt made by `withRetry` inside
`sendMediaToTelegram`.  Each retry attempt performs one Telegram call with
identical arguments, recorded in `telegramCalls`. -/
def handleMessage (whatsappPhone telegramUserId : String) (now : Nat)
    (fmt : Nat → String) (msg : Msg) (download : Option Media)
    (send : Nat → Except String Unit) : HandlerOutput :=
  let normalizedWhatsAppPhone := jsReplaceFirstChar whatsappPhone '+'
  if msg.from_ ≠ normalizedWhatsAppPhone ++ "@c.us" then
    { logs := ["⏩ Skipping message from " ++ msg.from_ ++ ": Not from " ++ whatsappPhone],
      replies := [], telegramCalls := [] }
  else if msg.type ∈ SUPPORTED_MEDIA_TYPES then
    let incomingLog := "📥 Incoming media from " ++ msg.from_ ++ ": " ++ msg.type
    match download with
    | none =>
      { logs := [incomingLog, "❌ Failed to download media"],
        replies := ["❌ Error downloading media."], telegramCalls := [] }
    | some media =>
      let fileSizeMB := estimateFileSize media.data
      if fileSizeMB > MAX_FILE_SIZE_MB then
        { logs := [incomingLog,
            "❌ File too large: " ++ toString fileSizeMB ++ "MB exceeds " ++
              toString MAX_FILE_SIZE_MB ++ "MB"],
          replies := ["❌ File is too large (" ++ toString fileSizeMB ++
            "MB). Maximum allowed is " ++ toString MAX_FILE_SIZE_MB ++ "MB."],
          telegramCalls := [] }
      else
        let sanitizedFileName := sanitizeFileName now media.filename
        let caption := generateCaption fmt msg.from_ msg.t
        let sendMethod := getTelegramSendMethod msg.type
        let sendingLog := "📤 Sending " ++ msg.type ++ " to Telegram (filename: " ++
          sanitizedFileName ++ ", size: " ++ toString (estimateFileSize media.data) ++ "MB)"
        let r := withRetry send RETRY_ATTEMPTS
        let calls := List.replicate r.2.1
          { method := sendMethod, chatId := telegramUserId, body := media.data,
            caption := jsTake caption 200, contentType := media.mimetype,
            filename := sanitizedFileName }
        let warnLogs := r.2.2.map fun p =>
          "⚠️ Retry " ++ toString p.1 ++ "/" ++ toString RETRY_ATTEMPTS ++
            " due to error: " ++ p.2
        match r.1 with
        | some (Except.error e) =>
          { logs := [incomingLog, sendingLog] ++ warnLogs ++
              ["❌ Error processing media: " ++ e],
            replies := ["❌ Error processing media."], telegramCalls := calls }
        | _ =>
          { logs := [incomingLog, sendingLog] ++ warnLogs ++
              ["✅ Media sent to Telegram successfully"],
            replies := ["✅ Media received and sent to Telegram."], telegramCalls := calls }
  else
    { logs := [], replies := [], telegramCalls := [] }

-- ===== QUICK SANITY EQUATIONS =====

theorem string_mk_length (l : List Char) : (String.mk l).length = l.length := rfl

theorem string_mk_data (l : List Char) : (String.mk l).data = l := rfl

theorem string_append_data (a b : String) : (a ++ b).data = a.data ++ b.data := rfl

/-- A concrete always-failing action, used to exercise `withRetry`. -/
def alwaysFail : Nat → Except String Unit := fun _ => Except.error "boom"

-- ===== C2: withRetry call-count behaviour =====

/-- C2: with `maxAttempts = 3`, `withRetry` calls the action at most 3 times:
if the action fails on calls `1..k-1` and succeeds on call `k` (`k ≤ 3`, here
0-indexed as success at index `k < 3` after `k` failures), it returns that
success having made exactly `k+1` calls; if the action fails on all 3 calls it
propagates the third error having made exactly 3 calls; the call count never
exceeds 3, and the whole result is independent of what the action would do on
a fourth call (indices `≥ 3`), so no fourth call ever occurs. -/
theorem withRetry_three_attempts {E A : Type} (action : Nat → Except E A) :
    (∀ k, k < 3 → ∀ a : A, (∀ j, j < k → ∃ e, action j = Except.error e) →
      action k = Except.ok a →
      (withRetry action 3).1 = some (Except.ok a) ∧ (withRetry action 3).2.1 = k + 1) ∧
    (∀ e₀ e₁ e₂, action 0 = Except.error e₀ → action 1 = Except.error e₁ →
      action 2 = Except.error e₂ →
      (withRetry action 3).1 = some (Except.error e₂) ∧ (withRetry action 3).2.1 = 3) ∧
    ((withRetry action 3).2.1 ≤ 3) ∧
    (∀ action' : Nat → Except E A, (∀ j, j < 3 → action j = action' j) →
      withRetry action 3 = withRetry action' 3) := by
  refine ⟨?_, ?_, ?_, ?_⟩
  · intro k hk a hfail hok
    interval_cases k
    · simp [withRetry, withRetryLoop, hok]
    · obtain ⟨e₀, h₀⟩ := hfail 0 (by norm_num)
      simp [withRetry, withRetryLoop, h₀, hok]
    · obtain ⟨e₀, h₀⟩ := hfail 0 (by norm_num)
      obtain ⟨e₁, h₁⟩ := hfail 1 (by norm_num)
      simp [withRetry, withRetryLoop, h₀, h₁, hok]
  · intro e₀ e₁ e₂ h₀ h₁ h₂
    simp [withRetry, withRetryLoop, h₀, h₁, h₂]
  · rcases h₀ : action 0 with e₀ | a₀
    · rcases h₁ : action 1 with e₁ | a₁
      · rcases h₂ : action 2 with e₂ | a₂ <;> simp [withRetry, withRetryLoop, h₀, h₁, h₂]
      · simp [withRetry, withRetryLoop, h₀, h₁]
    · simp [withRetry, withRetryLoop, h₀]
  · intro action' hagree
    have h0 := hagree 0 (by norm_num)
    have h1 := hagree 1 (by norm_num)
    have h2 := hagree 2 (by norm_num)
    simp only [withRetry, withRetryLoop, h0, h1, h2]

/-- Witness for C2: an action failing once then succeeding returns the success
with exactly 2 calls. -/
theorem withRetry_three_attempts_witness :
    (withRetry (fun j => if j = 0 then Except.error "boom" else Except.ok 37) 3).1 =
        some (Except.ok 37) ∧
    (withRetry (fun j => if j = 0 then Except.error "boom" else Except.ok 37) 3).2.1 = 2 :=
  (withRetry_three_attempts (E := String) (A := Nat)
      (fun j => if j = 0 then Except.error "boom" else Except.ok 37)).1 1 (by norm_num) 37
    (by intro j hj; interval_cases j; exact ⟨"boom", rfl⟩) (by simp)

-- ===== C5: warnings per failed attempt =====

/-- C5 counterexample: the claim says an action failing all 3 of 3 attempts
yields 3 warnings (one per failed attempt, the final one included); on the
code the final failed attempt rethrows before logging, so the always-failing
action yields exactly 2 warnings, not 3, and no warning carries index 3. -/
theorem withRetry_warnings_counterexample :
    (withRetry alwaysFail 3).2.2.length = 2 ∧
    ¬ (withRetry alwaysFail 3).2.2.length = 3 ∧
    (3, "boom") ∉ (withRetry alwaysFail 3).2.2 := by
  refine ⟨rfl, by decide, by decide⟩

/-- C5 amended: every failed attempt other than the final attempt of an
exhausted run causes a warning carrying that attempt's 1-based index and the
error; an action failing all 3 of 3 attempts therefore yields exactly the two
warnings for attempts 1 and 2, and a run succeeding at 0-indexed call `k`
yields one warning per preceding failed attempt. -/
theorem withRetry_warning_per_nonfinal_failure {E A : Type} (action : Nat → Except E A) :
    (∀ e₀ e₁ e₂, action 0 = Except.error e₀ → action 1 = Except.error e₁ →
      action 2 = Except.error e₂ →
      (withRetry action 3).2.2 = [(1, e₀), (2, e₁)]) ∧
    (∀ k, k < 3 → ∀ a : A, ∀ err : Nat → E, (∀ j, j < k → action j = Except.error (err j)) →
      action k = Except.ok a →
      (withRetry action 3).2.2 = (List.range k).map fun j => (j + 1, err j)) := by
  constructor
  · intro e₀ e₁ e₂ h₀ h₁ h₂
    simp [withRetry, withRetryLoop, h₀, h₁, h₂]
  · intro k hk a err hfail hok
    interval_cases k
    · simp [withRetry, withRetryLoop, hok]
    · have h₀ := hfail 0 (by norm_num)
      simp [withRetry, withRetryLoop, h₀, hok, List.range_succ]
    · have h₀ := hfail 0 (by norm_num)
      have h₁ := hfail 1 (by norm_num)
      simp [withRetry, withRetryLoop, h₀, h₁, hok, List.range_succ]

/-- Witness for the amended C5: the always-failing action yields exactly the
warnings for attempts 1 and 2. -/
theorem withRetry_warning_per_nonfinal_failure_witness :
    (withRetry alwaysFail 3).2.2 = [(1, "boom"), (2, "boom")] :=
  (withRetry_warning_per_nonfinal_failure alwaysFail).1 "boom" "boom" "boom" rfl rfl rfl

-- ===== C6: send-method selection =====

/-- C6: `getTelegramSendMethod` maps image→sendPhoto, video→sendVideo,
audio→sendAudio, and both document and sticker→sendDocument. -/
theorem getTelegramSendMethod_correct :
    getTelegramSendMethod "image" = "sendPhoto" ∧
    getTelegramSendMethod "video" = "sendVideo" ∧
    getTelegramSendMethod "audio" = "sendAudio" ∧
    getTelegramSendMethod "document" = "sendDocument" ∧
    getTelegramSendMethod "sticker" = "sendDocument" := by
  refine ⟨rfl, by decide, by decide, by decide, by decide⟩

-- ===== C7: size estimator =====

/-- C7: `estimateFileSize data` equals `round(length(data) * 3 / 4 / 1024 / 1024)`
(the exact rational-arithmetic reading of the floating-point computation,
which only scales by powers of two), and it is monotone non-decreasing in the
length of `data`. -/
theorem estimateFileSize_spec :
    (∀ s : String,
      estimateFileSize s = round (((s.length : ℚ) * 3) / 4 / 1024 / 1024)) ∧
    (∀ s t : String, s.length ≤ t.length → estimateFileSize s ≤ estimateFileSize t) := by
  constructor
  · intro s; rfl
  · intro s t h
    unfold estimateFileSize
    rw [round_eq, round_eq]
    apply Int.floor_mono
    have hq : (s.length : ℚ) ≤ (t.length : ℚ) := by exact_mod_cast h
    gcongr

/-- Witness for C7: both conjuncts evaluated at concrete strings. -/
theorem estimateFileSize_spec_witness :
    estimateFileSize "abcd" = round (((4 : ℕ) : ℚ) * 3 / 4 / 1024 / 1024) ∧
    estimateFileSize "ab" ≤ estimateFileSize "abcd" :=
  ⟨estimateFileSize_spec.1 "abcd", estimateFileSize_spec.2 "ab" "abcd" (by decide)⟩

-- ===== DECIMAL-DIGIT FACTS ABOUT `Nat.repr` (for the placeholder name) =====

theorem digitChar_isDigit : ∀ m : Nat, m < 10 → (Nat.digitChar m).isDigit = true := by
  decide

theorem toDigitsCore_all_isDigit :
    ∀ (fuel n : Nat) (ds : List Char), (∀ c ∈ ds, c.isDigit = true) →
      ∀ c ∈ Nat.toDigitsCore 10 fuel n ds, c.isDigit = true := by
  intro fuel
  induction fuel with
  | zero => intro n ds hds; simpa [Nat.toDigitsCore] using hds
  | succ fuel ih =>
    intro n ds hds
    have hcons : ∀ c ∈ Nat.digitChar (n % 10) :: ds, c.isDigit = true := by
      intro c hc
      rcases List.mem_cons.mp hc with h | h
      · subst h; exact digitChar_isDigit _ (Nat.mod_lt _ (by norm_num))
      · exact hds c h
    simp only [Nat.toDigitsCore]
    split
    · exact hcons
    · exact ih _ _ hcons

theorem toDigitsCore_length_le :
    ∀ (fuel n : Nat) (ds : List Char),
      ds.length ≤ (Nat.toDigitsCore 10 fuel n ds).length := by
  intro fuel
  induction fuel with
  | zero => intro n ds; simp [Nat.toDigitsCore]
  | succ fuel ih =>
    intro n ds
    simp only [Nat.toDigitsCore]
    split
    · simp
    · calc ds.length ≤ (Nat.digitChar (n % 10) :: ds).length := by simp
        _ ≤ _ := ih _ _

theorem toDigits_ne_nil (n : Nat) : Nat.toDigits 10 n ≠ [] := by
  have h : 0 < (Nat.toDigitsCore 10 (n + 1) n []).length := by
    simp only [Nat.toDigitsCore]
    split
    · simp
    · calc 0 < (Nat.digitChar (n % 10) :: ([] : List Char)).length := by simp
        _ ≤ _ := toDigitsCore_length_le _ _ _
  exact List.ne_nil_of_length_pos h

theorem repr_data (n : Nat) : (Nat.repr n).data = Nat.toDigits 10 n := rfl

theorem repr_mk (n : Nat) : Nat.repr n = String.mk (Nat.toDigits 10 n) := rfl

theorem repr_all_isDigit (n : Nat) : ∀ c ∈ (Nat.repr n).data, c.isDigit = true := by
  rw [repr_data]
  exact toDigitsCore_all_isDigit (n + 1) n [] (by simp)

theorem isDigit_allowedChar (c : Char) (h : c.isDigit = true) : allowedChar c = true := by
  simp [allowedChar, h]

theorem allowedChar_sanitizeChar (c : Char) : allowedChar (sanitizeChar c) = true := by
  unfold sanitizeChar
  split
  · assumption
  · decide

theorem sanitizeChar_idem (c : Char) : sanitizeChar (sanitizeChar c) = sanitizeChar c := by
  unfold sanitizeChar
  by_cases hc : allowedChar c = true <;> simp [hc]

-- ===== C8: sanitizeFileName safety =====

/-- C8: on an absent or empty name, `sanitizeFileName` produces a string of
the shape `media_<digits>.bin`; on every input string the result contains only
characters from `[A-Za-z0-9._-]` and is at most 64 characters long (for the
empty-input placeholder this needs the clock value to have at most 54 decimal
digits, amply true of any epoch-milliseconds reading). -/
theorem sanitizeFileName_safe :
    (∀ now : Nat, matchesMediaPattern (sanitizeFileName now none) ∧
      matchesMediaPattern (sanitizeFileName now (some ""))) ∧
    (∀ (now : Nat) (s : String), now < 10 ^ 54 →
      (∀ c ∈ (sanitizeFileName now (some s)).data, allowedChar c = true) ∧
      (sanitizeFileName now (some s)).length ≤ 64) := by
  have hpat : ∀ now : Nat, matchesMediaPattern ("media_" ++ Nat.repr now ++ ".bin") := by
    intro now
    exact ⟨Nat.toDigits 10 now, toDigits_ne_nil now,
      by rw [← repr_data]; exact repr_all_isDigit now, by rw [repr_mk]⟩
  have hmedia : ∀ c ∈ ("media_" : String).data, allowedChar c = true := by decide
  have hbin : ∀ c ∈ (".bin" : String).data, allowedChar c = true := by decide
  have hplaceChars : ∀ now : Nat,
      ∀ c ∈ ("media_" ++ Nat.repr now ++ ".bin" : String).data, allowedChar c = true := by
    intro now c hc
    rw [string_append_data, string_append_data] at hc
    rcases List.mem_append.mp hc with hc' | hc'
    · rcases List.mem_append.mp hc' with hc'' | hc''
      · exact hmedia c hc''
      · exact isDigit_allowedChar c (repr_all_isDigit now c hc'')
    · exact hbin c hc'
  have hplaceLen : ∀ now : Nat, now < 10 ^ 54 →
      ("media_" ++ Nat.repr now ++ ".bin" : String).length ≤ 64 := by
    intro now h
    rw [String.length_append, String.length_append]
    have hr := Nat.repr_length now 54 (by norm_num) h
    have h6 : ("media_" : String).length = 6 := rfl
    have h4 : (".bin" : String).length = 4 := rfl
    omega
  refine ⟨fun now => ⟨hpat now, hpat now⟩, ?_⟩
  intro now s hnow
  by_cases hs : s = ""
  · subst hs
    exact ⟨hplaceChars now, hplaceLen now hnow⟩
  · constructor
    · intro c hc
      simp only [sanitizeFileName, if_neg hs, jsTake, string_mk_data] at hc
      obtain ⟨a, _, rfl⟩ := List.mem_map.mp (List.take_subset _ _ hc)
      exact allowedChar_sanitizeChar a
    · simp only [sanitizeFileName, if_neg hs, jsTake, string_mk_data, string_mk_length,
        List.length_take]
      exact inf_le_left

/-- Witness for C8: the second conjunct at a concrete clock and name. -/
theorem sanitizeFileName_safe_witness :
    (∀ c ∈ (sanitizeFileName 123 (some "a b/c.png")).data, allowedChar c = true) ∧
    (sanitizeFileName 123 (some "a b/c.png")).length ≤ 64 :=
  sanitizeFileName_safe.2 123 "a b/c.png" (by norm_num)

-- ===== C10: sanitizeFileName idempotence on non-empty input =====

/-- C10: on a non-empty name the sanitizer is idempotent — its output consists
only of kept characters and is at most 64 long, on which the replacement and
the truncation both act as the identity.  Stated with independent clock
readings for the two passes (the non-empty branch never reads the clock). -/
theorem sanitizeFileName_idem (now now' : Nat) (s : String) (h : s ≠ "") :
    sanitizeFileName now (some (sanitizeFileName now' (some s))) =
      sanitizeFileName now' (some s) := by
  have hdata : s.data ≠ [] := by
    obtain ⟨l⟩ := s
    intro hl
    apply h
    simp only [string_mk_data] at hl
    subst hl
    rfl
  have hres : sanitizeFileName now' (some s) =
      String.mk ((s.data.map sanitizeChar).take 64) := by
    simp [sanitizeFileName, h, jsTake]
  have hlenpos : ((s.data.map sanitizeChar).take 64).length ≠ 0 := by
    have hd : s.data.length ≠ 0 := fun h0 => hdata (List.length_eq_zero.mp h0)
    simp only [List.length_take, List.length_map]
    omega
  have htne : String.mk ((s.data.map sanitizeChar).take 64) ≠ "" := by
    intro he
    exact hlenpos (congrArg String.length he)
  rw [hres]
  simp only [sanitizeFileName, if_neg htne, jsTake, string_mk_data]
  congr 1
  rw [List.map_take, List.map_map, List.take_take]
  have hff : sanitizeChar ∘ sanitizeChar = sanitizeChar := funext sanitizeChar_idem
  rw [hff]
  norm_num

/-- Witness for C10: idempotence at a concrete non-empty name. -/
theorem sanitizeFileName_idem_witness :
    sanitizeFileName 7 (some (sanitizeFileName 9 (some "a b"))) =
      sanitizeFileName 9 (some "a b") :=
  sanitizeFileName_idem 7 9 "a b" (by decide)

-- ===== C9: caption bounds =====

/-- C9: the caption is at most 200 characters, and contains the literal sender
string whenever the sender fits before the 200-character truncation point (the
template puts 27 characters in front of the sender). -/
theorem generateCaption_spec (fmt : Nat → String) (from_ : String) (ts : Nat) :
    (generateCaption fmt from_ ts).length ≤ 200 ∧
    (27 + from_.length ≤ 200 →
      List.IsInfix from_.data (generateCaption fmt from_ ts).data) := by
  constructor
  · simp only [generateCaption, jsTake, string_mk_length, List.length_take]
    exact inf_le_left
  · intro hfit
    simp only [generateCaption, jsTake, string_mk_data, string_append_data]
    rw [List.append_assoc, List.append_assoc]
    have hpre : ("Media from WhatsApp:\nFrom: " : String).data.length = 27 := by decide
    rw [List.take_append_eq_append_take,
      List.take_of_length_le (by rw [hpre]; norm_num), hpre]
    rw [List.take_append_eq_append_take,
      List.take_of_length_le
        (by have hfl : from_.length = from_.data.length := rfl; omega)]
    exact ⟨("Media from WhatsApp:\nFrom: " : String).data,
      List.take (173 - from_.length) (("\nTime: " : String).data ++ (fmt (ts * 1000)).data),
      by simp⟩

/-- Witness for C9: both conjuncts at concrete formatter, sender, timestamp. -/
theorem generateCaption_spec_witness :
    (generateCaption (fun _ => "1/1/1970") "alice" 0).length ≤ 200 ∧
    List.IsInfix "alice".data (generateCaption (fun _ => "1/1/1970") "alice" 0).data :=
  ⟨(generateCaption_spec (fun _ => "1/1/1970") "alice" 0).1,
   (generateCaption_spec (fun _ => "1/1/1970") "alice" 0).2 (by decide)⟩

-- ===== NORMALIZATION AGREEMENT =====

theorem removeFirstOccur_not_mem (c : Char) (l : List Char) (h : c ∉ l) :
    removeFirstOccur c l = l := by
  induction l with
  | nil => rfl
  | cons x xs ih =>
    have hx : ¬ x = c := fun hxc => h (hxc ▸ List.mem_cons_self x xs)
    simp only [removeFirstOccur, if_neg hx]
    rw [ih fun hc => h (List.mem_cons_of_mem x hc)]

/-- On a phone string whose `'+'`, if any, is leading, the code's
replace-first-`'+'` agrees with the spec's strip-leading-`'+'`. -/
theorem jsReplaceFirstChar_eq_strip (p : String) (hwf : phoneWellFormed p) :
    jsReplaceFirstChar p '+' = stripLeadingPlusSpec p := by
  obtain ⟨l⟩ := p
  rcases hwf with h | h
  · cases l with
    | nil => simp [string_mk_data] at h
    | cons x xs =>
      simp only [string_mk_data, List.head?_cons, Option.some.injEq] at h
      subst h
      simp [jsReplaceFirstChar, removeFirstOccur, stripLeadingPlusSpec, string_mk_data]
  · simp only [string_mk_data] at h
    have hrm := removeFirstOccur_not_mem '+' l h
    cases l with
    | nil => simp [jsReplaceFirstChar, stripLeadingPlusSpec, string_mk_data, hrm]
    | cons x xs =>
      have hx : ¬ (List.head? (x :: xs) = some '+') := by
        simp only [List.head?_cons, Option.some.injEq]
        exact fun hxc => h (hxc ▸ List.mem_cons_self x xs)
      simp only [jsReplaceFirstChar, stripLeadingPlusSpec, string_mk_data, hrm, if_neg hx]

-- ===== C1: non-target senders are skipped with only a log line =====

/-- C1: an event whose sender is not the configured phone (leading `'+'`
normalized away, `@c.us` appended) produces no reply and no Telegram call,
only the skip log line.  The phone is assumed to carry its `'+'`, if any, in
leading position (the documented `+<digits>` shape), under which the code's
`replace('+', '')` is exactly the leading-`'+'` normalization. -/
theorem handleMessage_nonTarget_only_logs (phone userId : String) (now : Nat)
    (fmt : Nat → String) (msg : Msg) (download : Option Media)
    (send : Nat → Except String Unit)
    (hwf : phoneWellFormed phone)
    (hne : msg.from_ ≠ stripLeadingPlusSpec phone ++ "@c.us") :
    (handleMessage phone userId now fmt msg download send).replies = [] ∧
    (handleMessage phone userId now fmt msg download send).telegramCalls = [] ∧
    (handleMessage phone userId now fmt msg download send).logs =
      ["⏩ Skipping message from " ++ msg.from_ ++ ": Not from " ++ phone] := by
  have hcode : jsReplaceFirstChar phone '+' = stripLeadingPlusSpec phone :=
    jsReplaceFirstChar_eq_strip phone hwf
  have hne' : msg.from_ ≠ jsReplaceFirstChar phone '+' ++ "@c.us" := by
    rw [hcode]; exact hne
  simp only [handleMessage, if_pos hne']
  exact ⟨trivial, trivial, trivial⟩

/-- Witness for C1: a concrete non-target sender is skipped. -/
theorem handleMessage_nonTarget_only_logs_witness :
    (handleMessage "+98123" "42" 0 (fun _ => "d") ⟨"other@c.us", "image", 5, true⟩
      none (fun _ => Except.ok ())).replies = [] ∧
    (handleMessage "+98123" "42" 0 (fun _ => "d") ⟨"other@c.us", "image", 5, true⟩
      none (fun _ => Except.ok ())).telegramCalls = [] ∧
    (handleMessage "+98123" "42" 0 (fun _ => "d") ⟨"other@c.us", "image", 5, true⟩
      none (fun _ => Except.ok ())).logs =
      ["⏩ Skipping message from other@c.us: Not from +98123"] :=
  handleMessage_nonTarget_only_logs "+98123" "42" 0 (fun _ => "d")
    ⟨"other@c.us", "image", 5, true⟩ none (fun _ => Except.ok ())
    (Or.inl rfl) (by decide)

-- ===== C3: oversized media gets one size reply and no delivery =====

/-- C3: a media event from the configured sender whose payload estimate
strictly exceeds the 50 MB ceiling produces exactly one reply naming the
measured size and the ceiling, and no Telegram send method is ever called. -/
theorem handleMessage_size_exceeded (phone userId : String) (now : Nat)
    (fmt : Nat → String) (msg : Msg) (m : Media) (send : Nat → Except String Unit)
    (hfrom : msg.from_ = jsReplaceFirstChar phone '+' ++ "@c.us")
    (htype : msg.type ∈ SUPPORTED_MEDIA_TYPES)
    (hsize : estimateFileSize m.data > MAX_FILE_SIZE_MB) :
    (handleMessage phone userId now fmt msg (some m) send).replies =
      ["❌ File is too large (" ++ toString (estimateFileSize m.data) ++
        "MB). Maximum allowed is " ++ toString MAX_FILE_SIZE_MB ++ "MB."] ∧
    (handleMessage phone userId now fmt msg (some m) send).telegramCalls = [] := by
  have h1 : ¬ (msg.from_ ≠ jsReplaceFirstChar phone '+' ++ "@c.us") := by
    rw [hfrom]; exact fun hne => hne rfl
  simp only [handleMessage, if_neg h1, if_pos htype, if_pos hsize]
  exact ⟨trivial, trivial⟩

/-- Witness inputs for C3: a base64 payload of 111149056 characters, whose
estimate is exactly 80 MB. -/
def bigMedia : Media :=
  { data := String.mk (List.replicate 111149056 'a'), mimetype := "image/png",
    filename := some "x.png" }

/-- Witness for C3: the handler replies with the 80 MB / 50 MB message and
makes no Telegram call. -/
theorem handleMessage_size_exceeded_witness :
    (handleMessage "+98123" "42" 0 (fun _ => "d") ⟨"98123@c.us", "image", 5, true⟩
      (some bigMedia) (fun _ => Except.ok ())).replies =
      ["❌ File is too large (80MB). Maximum allowed is 50MB."] ∧
    (handleMessage "+98123" "42" 0 (fun _ => "d") ⟨"98123@c.us", "image", 5, true⟩
      (some bigMedia) (fun _ => Except.ok ())).telegramCalls = [] := by
  have hsz : estimateFileSize bigMedia.data = 80 := by
    show round (((String.mk (List.replicate 111149056 'a')).length : ℚ) * 3 / 4 / 1024 / 1024)
      = 80
    rw [string_mk_length, List.length_replicate]
    norm_num [round_eq]
  have h := handleMessage_size_exceeded "+98123" "42" 0 (fun _ => "d")
    ⟨"98123@c.us", "image", 5, true⟩ bigMedia (fun _ => Except.ok ())
    (by decide) (by decide) (by rw [hsz]; decide)
  refine ⟨?_, h.2⟩
  rw [h.1, hsz]
  rfl

-- ===== C4: unsupported events from the target are dropped silently =====

/-- C4: an event from the configured sender that carries no media or whose
kind is outside {image, video, audio, document, sticker} is rejected
silently: no reply, no Telegram call.  The code gates only on the kind, so
the no-media case is covered through the source platform's invariant that a
message without media has a non-media kind. -/
theorem handleMessage_unsupported_silent (phone userId : String) (now : Nat)
    (fmt : Nat → String) (msg : Msg) (download : Option Media)
    (send : Nat → Except String Unit)
    (hfrom : msg.from_ = jsReplaceFirstChar phone '+' ++ "@c.us")
    (hgate : msg.hasMedia = false ∨ msg.type ∉ SUPPORTED_MEDIA_TYPES)
    (hplat : msg.hasMedia = false → msg.type ∉ SUPPORTED_MEDIA_TYPES) :
    (handleMessage phone userId now fmt msg download send).replies = [] ∧
    (handleMessage phone userId now fmt msg download send).telegramCalls = [] := by
  have htype : msg.type ∉ SUPPORTED_MEDIA_TYPES := by
    rcases hgate with h | h
    · exact hplat h
    · exact h
  have h1 : ¬ (msg.from_ ≠ jsReplaceFirstChar phone '+' ++ "@c.us") := by
    rw [hfrom]; exact fun hne => hne rfl
  simp only [handleMessage, if_neg h1, if_neg htype]
  exact ⟨trivial, trivial⟩

/-- Witness for C4: a media-less text event from the target sender yields no
reply and no Telegram call. -/
theorem handleMessage_unsupported_silent_witness :
    (handleMessage "+98123" "42" 0 (fun _ => "d") ⟨"98123@c.us", "chat", 5, false⟩
      none (fun _ => Except.ok ())).replies = [] ∧
    (handleMessage "+98123" "42" 0 (fun _ => "d") ⟨"98123@c.us", "chat", 5, false⟩
      none (fun _ => Except.ok ())).telegramCalls = [] :=
  handleMessage_unsupported_silent "+98123" "42" 0 (fun _ => "d")
    ⟨"98123@c.us", "chat", 5, false⟩ none (fun _ => Except.ok ())
    (by decide) (Or.inl rfl) (fun _ => by decide)
